import Mathlib

/-!
Shallow embedding of `src/solarmanagement.py`: the `Boiler` controller state
machine, the `Energy` read retry loop, the day-branch control policy of
`main`, the `is_night` classification and the shutdown handlers of `main`.

Timestamps and power readings are modelled as rationals (the source uses
epoch-second floats from `time.time()` and exact `Decimal` watt values).
Side effects on the outside world (relay commands, persistence writes of the
ledger file) are made explicit as a trace of `Effect` values.
-/

namespace SolarManagement

/-- Side effects a `Boiler` operation performs on the outside world: a relay
command (`device.relay(0, turn=...)`) or a persistence write of the ledger
(`write_charge_times_to_tmp_file`, recording the values written). -/
inductive Effect where
  | relay (turn : Bool)
  | writeLedger (today yesterday : ℚ)
deriving DecidableEq, Repr

/-- `Effect.is_write e` holds exactly for persistence writes of the ledger. -/
def Effect.is_write : Effect → Bool
  | .writeLedger _ _ => true
  | .relay _ => false

/-- `Boiler.FULL_CHARGE_TIME_SEC = 3600 * 3`. -/
def FULL_CHARGE_TIME_SEC : ℚ := 3600 * 3

/-- `Boiler.USAGE_PER_DAY_SEC = FULL_CHARGE_TIME_SEC / 2` (Python true
division, exact on these values). -/
def USAGE_PER_DAY_SEC : ℚ := FULL_CHARGE_TIME_SEC / 2

/-- Runtime state of a `Boiler` object: the ledger counters, the two command
flags, and the transition timestamps. -/
structure BoilerState where
  charge_time_today_sec : ℚ
  charge_time_yesterday_sec : ℚ
  is_enabled : Bool
  is_disabled : Bool
  start_time : ℚ
  stop_time : ℚ
deriving DecidableEq, Repr

/-- `Boiler.__init__`: the ledger counters are loaded from the persisted
file (parameters here); the flags are both initialised to `False` and the
timestamps to `0`. -/
def initBoiler (loaded_today loaded_yesterday : ℚ) : BoilerState :=
  { charge_time_today_sec := loaded_today
    charge_time_yesterday_sec := loaded_yesterday
    is_enabled := false
    is_disabled := false
    start_time := 0
    stop_time := 0 }

/-- `Boiler.__init__` when no persisted file exists: the initial data is
`charge_time_today = 0`, `charge_time_yesterday = FULL_CHARGE_TIME_SEC`. -/
def initBoilerDefault : BoilerState := initBoiler 0 FULL_CHARGE_TIME_SEC

/-- Result of a `Boiler` method: the returned boolean, the state after the
call, and the trace of external effects the call performed. -/
structure MethodRes where
  ret : Bool
  st : BoilerState
  eff : List Effect
deriving DecidableEq, Repr

namespace Boiler

/-- `Boiler.write_charge_times_to_tmp_file`: a persistence write of the
current ledger counters. -/
def write_charge_times_to_tmp_file (s : BoilerState) : List Effect :=
  [Effect.writeLedger s.charge_time_today_sec s.charge_time_yesterday_sec]

/-- `Boiler.enable`: if not `is_enabled`, command the relay on, record
`start_time = now`, flip the flags and return `True`; otherwise return
`False`. -/
def enable (s : BoilerState) (now : ℚ) : MethodRes :=
  if !s.is_enabled then
    { ret := true
      st := { s with start_time := now, is_enabled := true, is_disabled := false }
      eff := [Effect.relay true] }
  else
    { ret := false, st := s, eff := [] }

/-- `Boiler.disable`: if not `is_disabled`, record `stop_time = now`; if
`start_time != 0` add `stop_time - start_time` to the today counter and
persist the ledger; then command the relay off, flip the flags and return
`True`; otherwise return `False`. -/
def disable (s : BoilerState) (now : ℚ) : MethodRes :=
  if !s.is_disabled then
    let s1 : BoilerState := { s with stop_time := now }
    if s1.start_time ≠ 0 then
      let s2 : BoilerState :=
        { s1 with charge_time_today_sec :=
            s1.charge_time_today_sec + (s1.stop_time - s1.start_time) }
      { ret := true
        st := { s2 with is_enabled := false, is_disabled := true }
        eff := write_charge_times_to_tmp_file s2 ++ [Effect.relay false] }
    else
      { ret := true
        st := { s1 with is_enabled := false, is_disabled := true }
        eff := [Effect.relay false] }
  else
    { ret := false, st := s, eff := [] }

/-- `Boiler.set_new_day`: `charge_time_yesterday_sec` becomes the minimum of
the today counter and `FULL_CHARGE_TIME_SEC`, the today counter is reset to
`0`, and the ledger is persisted. -/
def set_new_day (s : BoilerState) : BoilerState × List Effect :=
  let s1 : BoilerState :=
    { s with
      charge_time_yesterday_sec := min s.charge_time_today_sec FULL_CHARGE_TIME_SEC
      charge_time_today_sec := 0 }
  (s1, write_charge_times_to_tmp_file s1)

/-- `Boiler.reset_counter`: the today counter is reset to `0` and the ledger
is persisted. -/
def reset_counter (s : BoilerState) : BoilerState × List Effect :=
  let s1 : BoilerState := { s with charge_time_today_sec := 0 }
  (s1, write_charge_times_to_tmp_file s1)

/-- `Boiler.is_fully_charged`. -/
def is_fully_charged (s : BoilerState) : Bool :=
  decide (s.charge_time_today_sec > FULL_CHARGE_TIME_SEC)

/-- `Boiler.is_charged_for_one_day`. -/
def is_charged_for_one_day (s : BoilerState) : Bool :=
  decide (s.charge_time_today_sec > USAGE_PER_DAY_SEC)

/-- `Boiler.charge_time_of_last_two_days`. -/
def charge_time_of_last_two_days (s : BoilerState) : ℚ :=
  s.charge_time_today_sec + s.charge_time_yesterday_sec

/-- `Boiler.is_boiler_charged_enough_for_one_day`. -/
def is_boiler_charged_enough_for_one_day (s : BoilerState) : Bool :=
  decide (charge_time_of_last_two_days s ≥ USAGE_PER_DAY_SEC)

end Boiler

/-- One call in a sequence of `enable` and `disable` calls, tagged with the
wall-clock time `time.time()` returns during that call. -/
inductive BCall where
  | enableAt (now : ℚ)
  | disableAt (now : ℚ)
deriving DecidableEq, Repr

/-- Apply one call to a boiler state, keeping only the resulting state. -/
def applyCall (s : BoilerState) : BCall → BoilerState
  | .enableAt t => (Boiler.enable s t).st
  | .disableAt t => (Boiler.disable s t).st

/-- Run a sequence of `enable`/`disable` calls from a given state. -/
def runCalls (s : BoilerState) : List BCall → BoilerState
  | [] => s
  | c :: cs => runCalls (applyCall s c) cs

/-- The flags are never both true. -/
def mutually_exclusive (s : BoilerState) : Prop :=
  ¬ (s.is_enabled = true ∧ s.is_disabled = true)

/-- Exactly one of the two flags is true. -/
def exactly_one_flag (s : BoilerState) : Prop :=
  s.is_enabled ≠ s.is_disabled

/-- Day-branch threshold from `main`: `3500` if the boiler is not enabled,
else `500`. -/
def enable_export_limit (s : BoilerState) : ℚ :=
  if !s.is_enabled then 3500 else 500

/-- Result of one day-branch control cycle with a valid reading: the state
and effect trace, plus whether each of `enable()` and `disable()` was
called and what it returned. -/
structure DayCycleRes where
  st : BoilerState
  eff : List Effect
  enable_called : Bool
  enable_ret : Bool
  disable_called : Bool
  disable_ret : Bool
deriving DecidableEq, Repr

/-- The day-branch policy of `main` for a valid reading `(prod_w, export_w)`:
compute `enable_export_limit` from the current state; if `prod_w > 3500`
and `export_w > enable_export_limit`, call `enable()`; then, unconditionally,
if `export_w <= 0`, call `disable()`. -/
def dayCycle (s : BoilerState) (now prod_w export_w : ℚ) : DayCycleRes :=
  let lim := enable_export_limit s
  let r1 : MethodRes :=
    if prod_w > 3500 ∧ export_w > lim then Boiler.enable s now
    else { ret := false, st := s, eff := [] }
  let r2 : MethodRes :=
    if export_w ≤ 0 then Boiler.disable r1.st now
    else { ret := false, st := r1.st, eff := [] }
  { st := r2.st
    eff := r1.eff ++ r2.eff
    enable_called := decide (prod_w > 3500 ∧ export_w > lim)
    enable_ret := r1.ret
    disable_called := decide (export_w ≤ 0)
    disable_ret := r2.ret }

namespace Energy

/-- Outcome of one attempt of the `Energy.read` loop body against the
transport: a `ConnectionException` while reading (`connFail`), a successful
meter read followed by a `KeyError` on the inverter payload (`keyFail`,
carrying the export value the meter returned), or a fully successful
attempt (`success`, carrying the computed production and export values). -/
inductive AttemptOutcome where
  | connFail
  | keyFail (export_val : ℚ)
  | success (prod_val export_val : ℚ)
deriving DecidableEq, Repr

/-- The `for attempt in range(10)` loop of `Energy.read`, with explicit
remaining fuel, the two result accumulators (initially `None`), and a
counter of `_try_recover` invocations. Both failure outcomes invoke
recovery and continue; a success returns at once. -/
def read_attempts (transport : ℕ → AttemptOutcome) :
    ℕ → ℕ → Option ℚ → Option ℚ → ℕ → (Option ℚ × Option ℚ) × ℕ
  | _, 0, production_w, export_w, recoveries => ((production_w, export_w), recoveries)
  | attempt, fuel + 1, production_w, export_w, recoveries =>
    match transport attempt with
    | .connFail =>
        read_attempts transport (attempt + 1) fuel production_w export_w (recoveries + 1)
    | .keyFail e =>
        read_attempts transport (attempt + 1) fuel production_w (some e) (recoveries + 1)
    | .success p e => ((some p, some e), recoveries)

/-- `Energy.read`: up to 10 attempts, starting with both accumulators
`None` and no recoveries performed. Returns the reading together with the
number of `_try_recover` invocations. -/
def read (transport : ℕ → AttemptOutcome) : (Option ℚ × Option ℚ) × ℕ :=
  read_attempts transport 0 10 none none 0

end Energy

/-- `is_night`: true when the local hour is below 7 or above 23. -/
def is_night (hour : ℕ) : Bool :=
  decide (hour < 7) || decide (hour > 23)

/-- Why the control loop of `main` terminated: `KeyboardInterrupt` or any
other unhandled exception. -/
inductive TerminationCause where
  | keyboardInterrupt
  | unexpectedFault
deriving DecidableEq, Repr

/-- The two exception handlers at the bottom of `main`: both call
`boiler.disable()`, then `boiler.write_charge_times_to_tmp_file()`, and
return the exit status (`0` for `KeyboardInterrupt`, `1` otherwise). -/
def shutdown (cause : TerminationCause) (s : BoilerState) (now : ℚ) :
    BoilerState × List Effect × ℕ :=
  match cause with
  | .keyboardInterrupt =>
      let r := Boiler.disable s now
      (r.st, r.eff ++ Boiler.write_charge_times_to_tmp_file r.st, 0)
  | .unexpectedFault =>
      let r := Boiler.disable s now
      (r.st, r.eff ++ Boiler.write_charge_times_to_tmp_file r.st, 1)

/-- A concrete reachable state with the boiler enabled, used to instantiate
the universally quantified theorems below. -/
def sampleEnabled : BoilerState :=
  { charge_time_today_sec := 0
    charge_time_yesterday_sec := 10800
    is_enabled := true
    is_disabled := false
    start_time := 100
    stop_time := 0 }

/-- A concrete reachable state with the boiler disabled. -/
def sampleDisabled : BoilerState :=
  { charge_time_today_sec := 0
    charge_time_yesterday_sec := 10800
    is_enabled := false
    is_disabled := true
    start_time := 0
    stop_time := 0 }

/-- A concrete transport that raises a connection fault on the first three
attempts and then succeeds. -/
def sampleTransportFail3 : ℕ → Energy.AttemptOutcome := fun i =>
  if i < 3 then Energy.AttemptOutcome.connFail
  else Energy.AttemptOutcome.success 4000 1000

/-- A concrete transport that raises a connection fault on every attempt. -/
def sampleTransportAllFail : ℕ → Energy.AttemptOutcome := fun _ =>
  Energy.AttemptOutcome.connFail

/-! ## Helper lemmas -/

theorem exclusive_of_exactly_one (s : BoilerState) (h : exactly_one_flag s) :
    mutually_exclusive s := by
  unfold exactly_one_flag at h
  unfold mutually_exclusive
  rintro ⟨h1, h2⟩
  rw [h1, h2] at h
  exact h rfl

theorem applyCall_exactly_one (s : BoilerState) (h : mutually_exclusive s) (c : BCall) :
    exactly_one_flag (applyCall s c) := by
  unfold mutually_exclusive at h
  cases c with
  | enableAt t =>
      cases he : s.is_enabled with
      | false => simp [applyCall, Boiler.enable, he, exactly_one_flag]
      | true =>
          have hd : s.is_disabled = false := by
            cases hsd : s.is_disabled
            · rfl
            · exact absurd ⟨he, hsd⟩ h
          simp [applyCall, Boiler.enable, he, exactly_one_flag, hd]
  | disableAt t =>
      cases hd : s.is_disabled with
      | false =>
          simp only [applyCall, Boiler.disable, hd, Bool.not_false, if_true,
            exactly_one_flag]
          split <;> simp
      | true =>
          have he : s.is_enabled = false := by
            cases hse : s.is_enabled
            · rfl
            · exact absurd ⟨hse, hd⟩ h
          simp [applyCall, Boiler.disable, hd, exactly_one_flag, he]

theorem runCalls_exactly_one (calls : List BCall) :
    ∀ s : BoilerState, exactly_one_flag s → exactly_one_flag (runCalls s calls) := by
  induction calls with
  | nil => intro s h; exact h
  | cons c cs ih =>
      intro s h
      exact ih _ (applyCall_exactly_one s (exclusive_of_exactly_one s h) c)

theorem runCalls_exclusive (calls : List BCall) :
    ∀ s : BoilerState, mutually_exclusive s → mutually_exclusive (runCalls s calls) := by
  induction calls with
  | nil => intro s h; exact h
  | cons c cs ih =>
      intro s h
      exact ih _ (exclusive_of_exactly_one _ (applyCall_exactly_one s h c))

theorem initBoilerDefault_exclusive : mutually_exclusive initBoilerDefault := by
  unfold mutually_exclusive initBoilerDefault initBoiler
  simp

theorem disable_st_is_disabled (s : BoilerState) (t : ℚ) :
    (Boiler.disable s t).st.is_disabled = true := by
  unfold Boiler.disable
  cases h : s.is_disabled with
  | false => simp only [h, Bool.not_false, if_true]; split <;> simp
  | true => simp [h]

theorem disable_st_not_enabled (s : BoilerState) (t : ℚ)
    (h : mutually_exclusive s) : (Boiler.disable s t).st.is_enabled = false := by
  unfold Boiler.disable
  cases hd : s.is_disabled with
  | false => simp only [hd, Bool.not_false, if_true]; split <;> simp
  | true =>
      have he : s.is_enabled = false := by
        cases hse : s.is_enabled
        · rfl
        · exact absurd ⟨hse, hd⟩ h
      simp [hd, he]

/-! ## Claims -/

/-- Claim C1, counterexample: on a freshly constructed boiler, before any
call (the empty call sequence), both flags are false, so it is not the case
that exactly one of them is true. -/
theorem C1_counterexample :
    ¬ exactly_one_flag (runCalls initBoilerDefault []) := by
  unfold exactly_one_flag runCalls initBoilerDefault initBoiler
  simp

/-- Claim C1, amended: over every sequence of enable/disable calls from a
freshly constructed boiler, the flags are always mutually exclusive, and
after at least one call exactly one of them is true; in the fresh state
itself both flags are false. -/
theorem C1_flags_exclusive (calls : List BCall) :
    mutually_exclusive (runCalls initBoilerDefault calls) ∧
    (calls ≠ [] → exactly_one_flag (runCalls initBoilerDefault calls)) := by
  constructor
  · exact runCalls_exclusive calls initBoilerDefault initBoilerDefault_exclusive
  · intro hne
    match calls with
    | [] => exact absurd rfl hne
    | c :: cs =>
        exact runCalls_exactly_one cs _
          (applyCall_exactly_one _ initBoilerDefault_exclusive c)

/-- Claim C1, witness: after a single disable call exactly one flag is true. -/
theorem C1_flags_exclusive_witness :
    mutually_exclusive (runCalls initBoilerDefault [BCall.disableAt 1]) ∧
    exactly_one_flag (runCalls initBoilerDefault [BCall.disableAt 1]) :=
  ⟨(C1_flags_exclusive [BCall.disableAt 1]).1,
   (C1_flags_exclusive [BCall.disableAt 1]).2 (by simp)⟩

/-- Claim C5: set_new_day sets the yesterday counter to the minimum of the
today counter and FULL_CHARGE_TIME_SEC, resets the today counter to zero,
and the resulting yesterday counter never exceeds 10800. -/
theorem C5_set_new_day (s : BoilerState) :
    (Boiler.set_new_day s).1.charge_time_yesterday_sec
      = min s.charge_time_today_sec FULL_CHARGE_TIME_SEC
    ∧ (Boiler.set_new_day s).1.charge_time_today_sec = 0
    ∧ (Boiler.set_new_day s).1.charge_time_yesterday_sec ≤ 10800 := by
  refine ⟨rfl, rfl, ?_⟩
  have h : FULL_CHARGE_TIME_SEC = 10800 := by norm_num [FULL_CHARGE_TIME_SEC]
  calc (Boiler.set_new_day s).1.charge_time_yesterday_sec
      = min s.charge_time_today_sec FULL_CHARGE_TIME_SEC := rfl
    _ ≤ FULL_CHARGE_TIME_SEC := min_le_right _ _
    _ = 10800 := h

/-- Claim C6: is_boiler_charged_enough_for_one_day returns true exactly when
the sum of the today and yesterday counters is at least 5400. -/
theorem C6_charged_enough (s : BoilerState) :
    Boiler.is_boiler_charged_enough_for_one_day s = true ↔
      s.charge_time_today_sec + s.charge_time_yesterday_sec ≥ 5400 := by
  unfold Boiler.is_boiler_charged_enough_for_one_day Boiler.charge_time_of_last_two_days
  rw [decide_eq_true_iff]
  norm_num [USAGE_PER_DAY_SEC, FULL_CHARGE_TIME_SEC]

/-- Claim C7: enable on an already enabled boiler returns false with no
state change and no external effect, and disable on an already disabled
boiler returns false with no state change and no external effect. -/
theorem C7_noop (s : BoilerState) (t : ℚ) :
    (s.is_enabled = true → Boiler.enable s t = { ret := false, st := s, eff := [] })
    ∧ (s.is_disabled = true → Boiler.disable s t = { ret := false, st := s, eff := [] }) := by
  constructor
  · intro h; simp [Boiler.enable, h]
  · intro h; simp [Boiler.disable, h]

/-- Claim C7, witness: a no-op enable and a no-op disable at concrete
states. -/
theorem C7_noop_witness :
    Boiler.enable sampleEnabled 5 = { ret := false, st := sampleEnabled, eff := [] } ∧
    Boiler.disable sampleDisabled 5 = { ret := false, st := sampleDisabled, eff := [] } :=
  ⟨(C7_noop sampleEnabled 5).1 rfl, (C7_noop sampleDisabled 5).2 rfl⟩

/-- Claim C2: in a day-branch cycle with a valid reading, the threshold is
500 when the boiler is enabled and 3500 otherwise; enable is called exactly
when the production exceeds 3500 and the export exceeds the threshold;
disable is called exactly when the export is at most 0, unconditionally
after the enable check; an enabled boiler with a positive export at most
the threshold is left unchanged; and an export at most 0 reaches a
disabled state regardless of the production value. -/
theorem C2_day_policy (s : BoilerState) (now prod_w export_w : ℚ) :
    (enable_export_limit s = if s.is_enabled then 500 else 3500)
    ∧ ((dayCycle s now prod_w export_w).enable_called = true ↔
        (prod_w > 3500 ∧ export_w > enable_export_limit s))
    ∧ ((dayCycle s now prod_w export_w).disable_called = true ↔ export_w ≤ 0)
    ∧ (s.is_enabled = true → 0 < export_w → export_w ≤ enable_export_limit s →
        (dayCycle s now prod_w export_w).st = s)
    ∧ (export_w ≤ 0 → (dayCycle s now prod_w export_w).disable_called = true ∧
        (dayCycle s now prod_w export_w).st.is_disabled = true) := by
  refine ⟨?_, ?_, ?_, ?_, ?_⟩
  · unfold enable_export_limit
    cases h : s.is_enabled <;> simp
  · simp [dayCycle]
  · simp [dayCycle]
  · intro he hpos hle
    have hc1 : ¬ (prod_w > 3500 ∧ export_w > enable_export_limit s) := by
      rintro ⟨_, hgt⟩
      exact absurd hle (not_le.mpr hgt)
    have hc2 : ¬ (export_w ≤ 0) := not_le.mpr hpos
    simp [dayCycle, hc1, hc2]
  · intro hle
    refine ⟨by simp [dayCycle, hle], ?_⟩
    simp only [dayCycle, hle, if_pos]
    exact disable_st_is_disabled _ now

/-- Claim C2, witness: with the boiler enabled, production 4000 and export
300 the state is unchanged, while export -200 reaches a disabled state. -/
theorem C2_day_policy_witness :
    (dayCycle sampleEnabled 1 4000 300).st = sampleEnabled ∧
    (dayCycle sampleEnabled 1 4000 (-200)).disable_called = true ∧
    (dayCycle sampleEnabled 1 4000 (-200)).st.is_disabled = true :=
  ⟨(C2_day_policy sampleEnabled 1 4000 300).2.2.2.1 rfl (by norm_num)
      (by norm_num [enable_export_limit, sampleEnabled]),
   (C2_day_policy sampleEnabled 1 4000 (-200)).2.2.2.2 (by norm_num)⟩

/-- Claim C3, helper: if every attempt raises a connection fault, the read
loop spends its whole fuel, recovers once per attempt, and keeps the
accumulators it was given. -/
theorem read_attempts_const_fail (transport : ℕ → Energy.AttemptOutcome)
    (h : ∀ i, transport i = Energy.AttemptOutcome.connFail) :
    ∀ fuel attempt pw ew r,
      Energy.read_attempts transport attempt fuel pw ew r = ((pw, ew), r + fuel) := by
  intro fuel
  induction fuel with
  | zero => intro attempt pw ew r; simp [Energy.read_attempts]
  | succ n ih =>
      intro attempt pw ew r
      rw [Energy.read_attempts, h attempt, ih]
      simp
      omega

/-- Claim C3, helper: with n leading connection faults and then a success,
and more than n units of fuel left, the read loop returns the successful
reading after exactly n recoveries. -/
theorem read_attempts_fail_then_success (transport : ℕ → Energy.AttemptOutcome)
    (p e : ℚ) :
    ∀ n attempt fuel pw ew r,
      (∀ i, i < n → transport (attempt + i) = Energy.AttemptOutcome.connFail) →
      transport (attempt + n) = Energy.AttemptOutcome.success p e →
      n < fuel →
      Energy.read_attempts transport attempt fuel pw ew r = ((some p, some e), r + n) := by
  intro n
  induction n with
  | zero =>
      intro attempt fuel pw ew r _ hsucc hlt
      obtain ⟨f, rfl⟩ : ∃ f, fuel = f + 1 := ⟨fuel - 1, by omega⟩
      rw [Nat.add_zero] at hsucc
      rw [Energy.read_attempts, hsucc]
      rfl
  | succ m ih =>
      intro attempt fuel pw ew r hfail hsucc hlt
      obtain ⟨f, rfl⟩ : ∃ f, fuel = f + 1 := ⟨fuel - 1, by omega⟩
      have h0 : transport attempt = Energy.AttemptOutcome.connFail := by
        have := hfail 0 (by omega)
        rwa [Nat.add_zero] at this
      rw [Energy.read_attempts, h0]
      have hfail2 : ∀ i, i < m →
          transport (attempt + 1 + i) = Energy.AttemptOutcome.connFail := by
        intro i hi
        have := hfail (i + 1) (by omega)
        rwa [show attempt + (i + 1) = attempt + 1 + i by omega] at this
      have hsucc2 : transport (attempt + 1 + m) = Energy.AttemptOutcome.success p e := by
        rwa [show attempt + 1 + m = attempt + (m + 1) by omega]
      rw [ih (attempt + 1) f pw ew (r + 1) hfail2 hsucc2 (by omega)]
      simp
      omega

/-- Claim C3: if the transport raises connection faults on the first n < 10
attempts and then succeeds, read returns the successful reading (after n
recoveries); if the transport always fails, read returns (none, none) after
spending all 10 attempts, with exactly 10 recovery invocations. The
embedding is a total function, so read never raises. -/
theorem C3_energy_read (transport : ℕ → Energy.AttemptOutcome) (n : ℕ) (p e : ℚ) :
    ((∀ i, i < n → transport i = Energy.AttemptOutcome.connFail) →
      transport n = Energy.AttemptOutcome.success p e → n < 10 →
      Energy.read transport = ((some p, some e), n))
    ∧ ((∀ i, transport i = Energy.AttemptOutcome.connFail) →
      Energy.read transport = ((none, none), 10)) := by
  constructor
  · intro hfail hsucc hlt
    unfold Energy.read
    have h1 : ∀ i, i < n → transport (0 + i) = Energy.AttemptOutcome.connFail := by
      intro i hi
      rw [Nat.zero_add]
      exact hfail i hi
    have h2 : transport (0 + n) = Energy.AttemptOutcome.success p e := by
      rw [Nat.zero_add]; exact hsucc
    rw [read_attempts_fail_then_success transport p e n 0 10 none none 0 h1 h2 hlt]
    rw [Nat.zero_add]
  · intro hfail
    unfold Energy.read
    rw [read_attempts_const_fail transport hfail]

/-- Claim C3, witness: a transport failing on the first three attempts then
succeeding yields the successful reading after three recoveries, and a
transport that always fails yields (none, none) after 10 recoveries. -/
theorem C3_energy_read_witness :
    Energy.read sampleTransportFail3 = ((some 4000, some 1000), 3) ∧
    Energy.read sampleTransportAllFail = ((none, none), 10) :=
  ⟨(C3_energy_read sampleTransportFail3 3 4000 1000).1
      (fun i hi => by simp [sampleTransportFail3, hi])
      (by simp [sampleTransportFail3])
      (by norm_num),
   (C3_energy_read sampleTransportAllFail 0 0 0).2 (fun _ => rfl)⟩

/-- Claim C4: an effective enable at a nonzero timestamp t followed by a
disable at t + d adds exactly d to the today counter; and a disable on a
state whose start_time is 0 leaves both ledger counters unchanged. -/
theorem C4_charge_delta (s : BoilerState) (t d : ℚ) :
    (s.is_enabled = false → 0 < t → 0 ≤ d →
      (Boiler.disable (Boiler.enable s t).st (t + d)).st.charge_time_today_sec
        = s.charge_time_today_sec + d)
    ∧ (s.start_time = 0 →
        (Boiler.disable s t).st.charge_time_today_sec = s.charge_time_today_sec ∧
        (Boiler.disable s t).st.charge_time_yesterday_sec = s.charge_time_yesterday_sec) := by
  constructor
  · intro he hpos _
    have ht : (t : ℚ) ≠ 0 := ne_of_gt hpos
    simp [Boiler.enable, he, Boiler.disable, ht]
  · intro h0
    unfold Boiler.disable
    cases hd : s.is_disabled with
    | false => simp [hd, h0]
    | true => simp [hd]

/-- Claim C4, witness: enable at time 100, disable at time 160, the today
counter grows by 60; disable on the fresh state (start_time 0) leaves the
ledger unchanged. -/
theorem C4_charge_delta_witness :
    (Boiler.disable (Boiler.enable initBoilerDefault 100).st (100 + 60)).st.charge_time_today_sec
      = initBoilerDefault.charge_time_today_sec + 60 ∧
    (Boiler.disable initBoilerDefault 5).st.charge_time_today_sec
      = initBoilerDefault.charge_time_today_sec ∧
    (Boiler.disable initBoilerDefault 5).st.charge_time_yesterday_sec
      = initBoilerDefault.charge_time_yesterday_sec :=
  ⟨(C4_charge_delta initBoilerDefault 100 60).1 rfl (by norm_num) (by norm_num),
   (C4_charge_delta initBoilerDefault 5 0).2 rfl⟩

/-- Claim C8: both termination handlers leave the boiler in the
post-disable state, the ledger flush of that state is in the effect trace,
on a flag-consistent state the final state is disabled and not enabled,
and the exit status is 0 exactly for a user interrupt and 1 exactly for an
unexpected fault. -/
theorem C8_shutdown_paths (cause : TerminationCause) (s : BoilerState) (t : ℚ) :
    (shutdown cause s t).1 = (Boiler.disable s t).st
    ∧ Effect.writeLedger (shutdown cause s t).1.charge_time_today_sec
        (shutdown cause s t).1.charge_time_yesterday_sec ∈ (shutdown cause s t).2.1
    ∧ (mutually_exclusive s → (shutdown cause s t).1.is_disabled = true ∧
        (shutdown cause s t).1.is_enabled = false)
    ∧ ((shutdown cause s t).2.2 = 0 ↔ cause = TerminationCause.keyboardInterrupt)
    ∧ ((shutdown cause s t).2.2 = 1 ↔ cause = TerminationCause.unexpectedFault) := by
  cases cause with
  | keyboardInterrupt =>
      refine ⟨rfl, ?_, ?_, by simp [shutdown], by simp [shutdown]⟩
      · simp [shutdown, Boiler.write_charge_times_to_tmp_file]
      · intro h
        exact ⟨disable_st_is_disabled s t, disable_st_not_enabled s t h⟩
  | unexpectedFault =>
      refine ⟨rfl, ?_, ?_, by simp [shutdown], by simp [shutdown]⟩
      · simp [shutdown, Boiler.write_charge_times_to_tmp_file]
      · intro h
        exact ⟨disable_st_is_disabled s t, disable_st_not_enabled s t h⟩

/-- Claim C8, witness: shutdown at a concrete enabled state exits 0 on a
user interrupt with the boiler left disabled, and exits 1 on a fault. -/
theorem C8_shutdown_witness :
    (shutdown TerminationCause.keyboardInterrupt sampleEnabled 10).2.2 = 0 ∧
    (shutdown TerminationCause.keyboardInterrupt sampleEnabled 10).1.is_disabled = true ∧
    (shutdown TerminationCause.unexpectedFault sampleEnabled 10).2.2 = 1 :=
  ⟨(C8_shutdown_paths TerminationCause.keyboardInterrupt sampleEnabled 10).2.2.2.1.mpr rfl,
   ((C8_shutdown_paths TerminationCause.keyboardInterrupt sampleEnabled 10).2.2.1
      (by simp [mutually_exclusive, sampleEnabled])).1,
   (C8_shutdown_paths TerminationCause.unexpectedFault sampleEnabled 10).2.2.2.2.mpr rfl⟩

/-- Claim C9: for every hour of a day (at most 23), is_night is true exactly
when the hour is below 7, the second disjunct (hour above 23) is
unsatisfiable, and every hour from 7 through 23 classifies as day. -/
theorem C9_night_window (h : ℕ) (hh : h ≤ 23) :
    (is_night h = true ↔ h < 7) ∧ (7 ≤ h → is_night h = false) ∧ ¬ 23 < h := by
  unfold is_night
  refine ⟨?_, ?_, by omega⟩
  · simp only [Bool.or_eq_true, decide_eq_true_iff]
    omega
  · intro h7
    simp only [Bool.or_eq_false_iff, decide_eq_false_iff_not]
    omega

/-- Claim C9, witness: at hour 12 the classification is day. -/
theorem C9_night_window_witness :
    (is_night 12 = true ↔ 12 < 7) ∧ (7 ≤ 12 → is_night 12 = false) ∧ ¬ 23 < 12 :=
  C9_night_window 12 (by norm_num)

/-- Claim C10: enable changes neither ledger counter and emits no
persistence write; its effect trace contains only relay commands. -/
theorem C10_enable_frame (s : BoilerState) (t : ℚ) :
    (Boiler.enable s t).st.charge_time_today_sec = s.charge_time_today_sec
    ∧ (Boiler.enable s t).st.charge_time_yesterday_sec = s.charge_time_yesterday_sec
    ∧ (Boiler.enable s t).eff.all (fun e => ! Effect.is_write e) = true := by
  unfold Boiler.enable
  cases h : s.is_enabled <;> simp [h, Effect.is_write]

end SolarManagement
